import Mathlib

/-!
Shallow embedding of the authentication core of the crispy-space-engine
repository: the JWT token layer (`generateTokens`, promisified
`jwt.sign`/`jwt.verify`), the `User` model methods
(`incrementLoginAttempts`, `resetLoginAttempts`), the two login
controllers (`server/controllers/authController.js` and
`server/controllers/mainController.js`), the auth middleware
(`server/middleware/authMiddleware.js`: `authenticate`, `validateToken`,
`handleAuthError`, `addSecurityHeaders`, `revokeToken`), the refresh and
forgot-password handlers.  Time is modelled as `Nat` milliseconds since
epoch (`Date.now()`); bcrypt comparison is an explicit comparator
parameter (it is an external library call); JWT signing is modelled
symbolically: a signed token records its payload, signing secret,
issued-at and expiry instants, and verification checks the secret and
the expiry exactly as `jsonwebtoken` does.
-/

/-- Claims carried by a signed token.  `generateTokens` signs only
`{ id: userId }`; the middleware additionally reads `decoded.role` and
`decoded.permissions`, which are `undefined` (here `none`) unless some
other issuer put them in the payload. -/
structure Payload where
  id : String
  role : Option String
  permissions : Option (List String)
deriving DecidableEq, Repr

/-- A signed JWT, modelled symbolically: the payload together with the
secret it was signed with and its issued-at / expiry instants (ms). -/
structure Jwt where
  payload : Payload
  secret : String
  iat : Nat
  expAt : Nat
deriving DecidableEq, Repr

/-- The two failure modes that the `jsonwebtoken` `verify` call distinguishes:
`TokenExpiredError` and `JsonWebTokenError` (bad signature / malformed). -/
inductive VerifyError
  | expired
  | invalid
deriving DecidableEq, Repr

/-- Model of `jwt.sign(payload, secret, { expiresIn })`. -/
def signJWT (p : Payload) (secret : String) (now expiresIn : Nat) : Jwt :=
  { payload := p, secret := secret, iat := now, expAt := now + expiresIn }

/-- Model of `jwt.verify(token, secret)`: signature check (the secret
must match), then expiry check; returns the decoded payload. -/
def verifyJWT (now : Nat) (secret : String) (t : Jwt) : Except VerifyError Payload :=
  if t.secret ≠ secret then .error .invalid
  else if t.expAt ≤ now then .error .expired
  else .ok t.payload

/-- Access-token lifetime: one hour (`expiresIn` of 1h) in `generateTokens`. -/
def accessExpiryMs : Nat := 60 * 60 * 1000

/-- Refresh-token lifetime: seven days (`expiresIn` of 7d) in `generateTokens`. -/
def refreshExpiryMs : Nat := 7 * 24 * 60 * 60 * 1000

/-- Lock duration in `User.incrementLoginAttempts`:
`const lockTime = 1 * 60 * 60 * 1000`. -/
def lockTimeMs : Nat := 1 * 60 * 60 * 1000

/-- Model of `generateTokens(userId)` (identical in
`authController.js` and `mainController.js`): two tokens signed with
distinct secrets, each carrying only `{ id: userId }`. -/
def generateTokens (userId : String) (now : Nat) (accessSecret refreshSecret : String) :
    Jwt × Jwt :=
  (signJWT { id := userId, role := none, permissions := none } accessSecret now accessExpiryMs,
   signJWT { id := userId, role := none, permissions := none } refreshSecret now refreshExpiryMs)

/-- The `User` mongoose document, restricted to the fields the
authentication flows read or write (`server/models/User.js`).
`password` holds the stored bcrypt hash. -/
structure User where
  id : String
  email : String
  name : String
  role : String
  isActive : Bool
  password : String
  loginAttempts : Nat
  lockUntil : Option Nat
  lastLogin : Option Nat
  resetPasswordToken : Option String
  resetPasswordExpires : Option Nat
deriving DecidableEq, Repr

/-- Model of `userSchema.methods.incrementLoginAttempts`: if
`loginAttempts + 1 >= 5` set `lockUntil = Date.now() + lockTime`, then
increment `loginAttempts`, in the same save. -/
def User.incrementLoginAttempts (now : Nat) (u : User) : User :=
  let u1 := if u.loginAttempts + 1 ≥ 5 then { u with lockUntil := some (now + lockTimeMs) } else u
  { u1 with loginAttempts := u1.loginAttempts + 1 }

/-- Model of `userSchema.methods.resetLoginAttempts`: zero the counter
and clear the lock. -/
def User.resetLoginAttempts (u : User) : User :=
  { u with loginAttempts := 0, lockUntil := none }

/-- Modelled from the spec: both login controllers call
`user.isLocked()`, but no definition of `isLocked` is present under
`src/`; the spec states the check as "if `lockUntil` is set and in the
future". -/
def User.isLocked (now : Nat) (u : User) : Bool :=
  match u.lockUntil with
  | some t => now < t
  | none => false

/-- Observable part of a login response: HTTP status, the JSON
`message` field (empty on the success body, which carries no message),
the access token in the body, the refresh-token cookie, and the public
user projection `(id, email, name, role)`. -/
structure LoginResponse where
  status : Nat
  message : String
  accessToken : Option Jwt
  cookie : Option Jwt
  bodyUser : Option (String × String × String × String)
deriving DecidableEq, Repr

namespace AuthController

/-- Model of `AuthController.login` (`server/controllers/authController.js`),
after a successful input validation.  `cmp` is the bcrypt
`compare(candidate, hash)`; `found` is the result of
`User.findOne({ email }).select(...)`.  Returns the response together
with the persisted user record (`none` when no user was found). -/
def login (cmp : String → String → Bool) (accessSecret refreshSecret : String)
    (now : Nat) (found : Option User) (password : String) :
    LoginResponse × Option User :=
  match found with
  | none => ({ status := 401, message := "Invalid credentials",
               accessToken := none, cookie := none, bodyUser := none }, none)
  | some u =>
    if u.isLocked now then
      ({ status := 423, message := "Account is locked. Please try again later.",
         accessToken := none, cookie := none, bodyUser := none }, some u)
    else if !(cmp password u.password) then
      ({ status := 401, message := "Invalid credentials",
         accessToken := none, cookie := none, bodyUser := none },
       some (u.incrementLoginAttempts now))
    else
      let pair := generateTokens u.id now accessSecret refreshSecret
      let u2 := { u.resetLoginAttempts with lastLogin := some now }
      ({ status := 200, message := "",
         accessToken := some pair.1, cookie := some pair.2,
         bodyUser := some (u.id, u.email, u.name, u.role) }, some u2)

/-- Response of the refresh handler: status, message, the new access
token in the body and the rotated refresh-token cookie. -/
structure RefreshResponse where
  status : Nat
  message : String
  accessToken : Option Jwt
  cookie : Option Jwt
deriving DecidableEq, Repr

/-- Model of `AuthController.refresh`.  The credential store `users`
and the revocation predicate `revoked` are passed in to express the
environment of the handler, but the source reads neither: it only reads the
`refreshToken` cookie, verifies it with the refresh secret, and mints a
new pair for `decoded.id`. -/
def refresh (accessSecret refreshSecret : String) (now : Nat)
    (users : List User) (revoked : String → Bool) (cookie : Option Jwt) :
    RefreshResponse :=
  match cookie with
  | none => { status := 401, message := "Refresh token not found",
              accessToken := none, cookie := none }
  | some rt =>
    match verifyJWT now refreshSecret rt with
    | .error _ => { status := 401, message := "Invalid refresh token",
                    accessToken := none, cookie := none }
    | .ok p =>
      let pair := generateTokens p.id now accessSecret refreshSecret
      { status := 200, message := "", accessToken := some pair.1, cookie := some pair.2 }

/-- Plain status/message response. -/
structure Resp where
  status : Nat
  message : String
deriving DecidableEq, Repr

/-- Model of `AuthController.forgotPassword`.  `hashedResetToken`
stands for `sha256(crypto.randomBytes(32))` (external entropy).
`mainController.js` `forgotPassword` is observably identical (it throws
a status-404 object with the same message instead of returning it). -/
def forgotPassword (now : Nat) (found : Option User) (hashedResetToken : String) :
    Resp × Option User :=
  match found with
  | none => ({ status := 404, message := "User not found" }, none)
  | some u =>
    ({ status := 200, message := "Password reset instructions sent to email" },
     some { u with resetPasswordToken := some hashedResetToken,
                   resetPasswordExpires := some (now + 30 * 60 * 1000) })

end AuthController

namespace MainController

/-- Model of `MainController.login` (`server/controllers/mainController.js`),
which orders the checks differently from `AuthController.login`: missing
user or failed password comparison first (incrementing the counter when
the user exists), and only then the lock check. -/
def login (cmp : String → String → Bool) (accessSecret refreshSecret : String)
    (now : Nat) (found : Option User) (password : String) :
    LoginResponse × Option User :=
  match found with
  | none => ({ status := 401, message := "Invalid credentials",
               accessToken := none, cookie := none, bodyUser := none }, none)
  | some u =>
    if !(cmp password u.password) then
      ({ status := 401, message := "Invalid credentials",
         accessToken := none, cookie := none, bodyUser := none },
       some (u.incrementLoginAttempts now))
    else if u.isLocked now then
      ({ status := 423, message := "Account is locked. Please try again later.",
         accessToken := none, cookie := none, bodyUser := none }, some u)
    else
      let pair := generateTokens u.id now accessSecret refreshSecret
      let u2 := { u.resetLoginAttempts with lastLogin := some now }
      ({ status := 200, message := "",
         accessToken := some pair.1, cookie := some pair.2,
         bodyUser := some (u.id, u.email, u.name, u.role) }, some u2)

end MainController

/-- One step of the JavaScript `String.prototype.replace` with a string
pattern and empty replacement, over character lists: remove the first
occurrence of `pat`, scanning left to right; leave the list unchanged
if `pat` does not occur. -/
def removeFirstAux (pat : List Char) : List Char → List Char
  | [] => []
  | c :: rest =>
    if pat.isPrefixOf (c :: rest) then (c :: rest).drop pat.length
    else c :: removeFirstAux pat rest

/-- Model of the JavaScript replace of `pat` by the empty string in `s`:
`replace` removes only the first occurrence. -/
def replaceFirst (s pat : String) : String :=
  ⟨removeFirstAux pat.data s.data⟩

/-- Whether `pat` occurs as a contiguous substring of the list. -/
def containsSub (pat : List Char) : List Char → Bool
  | [] => pat.isEmpty
  | c :: rest => pat.isPrefixOf (c :: rest) || containsSub pat rest

/-- Identity context the middleware attaches to the request
(`req.user = { id, role, permissions: decoded.permissions || [], token }`).
The token representative type is a parameter so the same context shape
serves the string-level middleware and the symbolic token layer. -/
structure ReqUser (τ : Type) where
  id : String
  role : Option String
  permissions : List String
  token : τ
deriving DecidableEq, Repr

/-- Assembly of the request identity context from a decoded payload,
exactly as `authenticate` builds `req.user`. -/
def mkReqUser {τ : Type} (p : Payload) (token : τ) : ReqUser τ :=
  { id := p.id, role := p.role, permissions := p.permissions.getD [], token := token }

/-- Rejection response produced by the middleware: HTTP status, JSON
`message`, and taxonomy `code`. -/
structure AuthReject where
  status : Nat
  message : String
  code : String
deriving DecidableEq, Repr

instance {ε α : Type} [DecidableEq ε] [DecidableEq α] : DecidableEq (Except ε α)
  | .ok x, .ok y =>
    if h : x = y then isTrue (by rw [h]) else isFalse (fun hh => h (Except.ok.inj hh))
  | .error x, .error y =>
    if h : x = y then isTrue (by rw [h]) else isFalse (fun hh => h (Except.error.inj hh))
  | .ok _, .error _ => isFalse (fun hh => Except.noConfusion hh)
  | .error _, .ok _ => isFalse (fun hh => Except.noConfusion hh)

/-- Aggregate outcome of the `authenticate` middleware on one request:
the headers it set on the response, and either a rejection response or
the attached identity context (followed by `next()`). -/
structure AuthOutcome where
  headers : List (String × String)
  result : Except AuthReject (ReqUser String)
deriving DecidableEq, Repr

namespace AuthMiddleware

/-- Error modes of `validateToken`: the revocation branch throws
a revocation error; `jwt.verify` throws
`TokenExpiredError` or `JsonWebTokenError`. -/
inductive AuthErrorKind
  | revoked
  | expired
  | invalid
deriving DecidableEq, Repr

/-- Model of `AuthMiddleware.validateToken`
(`server/middleware/authMiddleware.js`): if Redis is configured
(`redis = some r`), a truthy `GET bl_<token>` throws the revocation
error; otherwise the token goes to `jwt.verify` (`verify` is the
string-level verification oracle). -/
def validateToken (redis : Option (String → Bool))
    (verify : String → Except VerifyError Payload) (token : String) :
    Except AuthErrorKind Payload :=
  if (match redis with | some r => r ("bl_" ++ token) | none => false) then
    .error .revoked
  else
    match verify token with
    | .ok p => .ok p
    | .error .expired => .error .expired
    | .error .invalid => .error .invalid

/-- Model of `AuthMiddleware.handleAuthError`: maps each caught error
to the client-facing 401 response with its taxonomy code. -/
def handleAuthError : AuthErrorKind → AuthReject
  | .expired => { status := 401, message := "Token has expired", code := "TOKEN_EXPIRED" }
  | .invalid => { status := 401, message := "Invalid token", code := "INVALID_TOKEN" }
  | .revoked => { status := 401, message := "Token has been revoked", code := "TOKEN_REVOKED" }

/-- Headers stamped by `AuthMiddleware.addSecurityHeaders`. -/
def securityHeaders : List (String × String) :=
  [("X-Content-Type-Options", "nosniff"),
   ("X-Frame-Options", "DENY"),
   ("X-XSS-Protection", "1; mode=block"),
   ("Strict-Transport-Security", "max-age=31536000; includeSubDomains")]

/-- Model of `AuthMiddleware.authenticate`: a missing (or falsy, i.e.
empty) `Authorization` header rejects `NO_TOKEN`; the token is the
header with the first occurrence of the substring `"Bearer "` removed
(the `replace` call on the header); an empty token rejects
`INVALID_FORMAT`; then `validateToken`, whose errors go through
`handleAuthError`; on success `req.user` is attached and the security
headers are added. -/
def authenticate (redis : Option (String → Bool))
    (verify : String → Except VerifyError Payload) (authHeader : Option String) :
    AuthOutcome :=
  if authHeader.getD "" = "" then
    { headers := [],
      result := .error { status := 401, message := "Access denied: No token provided",
                         code := "NO_TOKEN" } }
  else
    let token := replaceFirst (authHeader.getD "") "Bearer "
    if token = "" then
      { headers := [],
        result := .error { status := 401, message := "Access denied: Invalid token format",
                           code := "INVALID_FORMAT" } }
    else
      match validateToken redis verify token with
      | .error e => { headers := [], result := .error (handleAuthError e) }
      | .ok p => { headers := securityHeaders, result := .ok (mkReqUser p token) }

/-- Model of `AuthMiddleware.revokeToken`: with Redis configured it
records the key `bl_<token>`, value 1, EX 86400 (a fixed 24-hour TTL); without
Redis it throws. -/
def revokeToken (hasRedis : Bool) (token : String) :
    Except String (String × String × Nat) :=
  if hasRedis then .ok ("bl_" ++ token, "1", 86400)
  else .error "Redis is not configured for token blacklisting"

end AuthMiddleware

/-- Remaining natural lifetime of a token at instant `now`, in whole
seconds (token TTLs handed to Redis `EX` are in seconds). -/
def remainingSeconds (now : Nat) (t : Jwt) : Nat :=
  (t.expAt - now) / 1000

/-- Concrete password comparator used to instantiate theorems: the
stored "hash" equals the candidate exactly.  Stands in for a bcrypt
comparison oracle at concrete inputs. -/
def cmpEq : String → String → Bool := fun a b => a == b

/-- String-level substring test, used to state when JavaScript
`replace` leaves a string unchanged. -/
def strContains (s pat : String) : Bool :=
  containsSub pat.data s.data

/-- Concrete unlocked user record used to instantiate theorems. -/
def sampleUser : User :=
  { id := "u1", email := "a@x.com", name := "Ada", role := "user",
    isActive := true, password := "pw", loginAttempts := 0,
    lockUntil := none, lastLogin := none,
    resetPasswordToken := none, resetPasswordExpires := none }

/-- Concrete user record whose account is locked until instant
3600010 ms. -/
def sampleLockedUser : User :=
  { id := "u2", email := "b@x.com", name := "Bob", role := "user",
    isActive := true, password := "pw", loginAttempts := 5,
    lockUntil := some 3600010, lastLogin := none,
    resetPasswordToken := none, resetPasswordExpires := none }

/-- Concrete administrator record used to instantiate theorems. -/
def sampleAdmin : User :=
  { id := "u3", email := "c@x.com", name := "Cyn", role := "admin",
    isActive := true, password := "pw", loginAttempts := 0,
    lockUntil := none, lastLogin := none,
    resetPasswordToken := none, resetPasswordExpires := none }

/-!  Helper lemmas about the bearer-stripping `replace` model.  -/

theorem isPrefixOf_append_self (l t : List Char) : l.isPrefixOf (l ++ t) = true := by
  rw [ List.isPrefixOf_iff_prefix]
  exact List.prefix_append l t

theorem removeFirstAux_append (pat l : List Char) (hp : pat ≠ []) :
    removeFirstAux pat (pat ++ l) = l := by
  cases pat with
  | nil => exact absurd rfl hp
  | cons p ps =>
    have hpre : (p :: ps).isPrefixOf (p :: (ps ++ l)) = true := by
      simpa using isPrefixOf_append_self (p :: ps) l
    show removeFirstAux (p :: ps) (p :: (ps ++ l)) = l
    unfold removeFirstAux
    rw [if_pos hpre]
    simpa using List.drop_left (p :: ps) l

theorem removeFirstAux_of_not_contains (pat : List Char) {l : List Char}
    (h : containsSub pat l = false) : removeFirstAux pat l = l := by
  induction l with
  | nil => rfl
  | cons c rest ih =>
    unfold containsSub at h
    rw [Bool.or_eq_false_iff] at h
    unfold removeFirstAux
    rw [if_neg (by simp [h.1]), ih h.2]

theorem removeFirstAux_eq_nil (pat : List Char) {l : List Char}
    (h : removeFirstAux pat l = []) : l = [] ∨ l = pat := by
  cases l with
  | nil => exact .inl rfl
  | cons c rest =>
    unfold removeFirstAux at h
    by_cases hp : pat.isPrefixOf (c :: rest) = true
    · rw [if_pos hp] at h
      have hle : (c :: rest).length ≤ pat.length := List.drop_eq_nil_iff.mp h
      have hpre : pat <+: (c :: rest) := List.isPrefixOf_iff_prefix.mp hp
      exact .inr ((hpre.eq_of_length (le_antisymm hpre.length_le hle)).symm)
    · rw [if_neg hp] at h
      exact absurd h (List.cons_ne_nil c (removeFirstAux pat rest))

theorem replaceFirst_append_self (t : String) :
    replaceFirst ("Bearer " ++ t) "Bearer " = t := by
  rw [String.ext_iff]
  show removeFirstAux "Bearer ".data ("Bearer " ++ t).data = t.data
  rw [String.data_append]
  exact removeFirstAux_append "Bearer ".data t.data (by decide)

theorem replaceFirst_of_not_contains (t : String) (h : strContains t "Bearer " = false) :
    replaceFirst t "Bearer " = t := by
  rw [String.ext_iff]
  exact removeFirstAux_of_not_contains "Bearer ".data h

theorem replaceFirst_eq_empty (h : String)
    (he : replaceFirst h "Bearer " = "") : h = "" ∨ h = "Bearer " := by
  have hd : removeFirstAux "Bearer ".data h.data = [] := by
    have := String.ext_iff.mp he
    exact this
  rcases removeFirstAux_eq_nil "Bearer ".data hd with h1 | h2
  · exact .inl (String.ext_iff.mpr h1)
  · exact .inr (String.ext_iff.mpr h2)

theorem append_bearer_ne_empty (t : String) : "Bearer " ++ t ≠ "" := by
  intro h
  have hd := String.ext_iff.mp h
  rw [String.data_append] at hd
  have h1 := (List.append_eq_nil.mp hd).1
  have h2 : ("Bearer " : String).data ≠ [] := by decide
  exact h2 h1

/-! Claim theorems. -/

/-- C2 counterexample: `generateTokens` signs only `{ id }`, so for the
issuance of subject "u1" the claims recovered by verification are role
`none` and permissions `[]`, not the stored role "admin" and
permission set ["vendor:read"] — the claimed round-trip of role and
permissions fails. -/
theorem C2_counterexample :
    (verifyJWT 0 "as" (generateTokens "u1" 0 "as" "rs").1).map
        (fun p => (p.role, p.permissions.getD []))
      ≠ Except.ok ((some "admin", ["vendor:read"]) : Option String × List String) := by
  decide

/-- C2 (amended): issuance followed immediately by verification
round-trips only the subject id: verifying the access token with the
access secret, and the refresh token with the refresh secret, before
expiry returns the payload `{ id := userId }` with no role and no
permissions, and the identity context built from it carries role `none`
and an empty permission set. -/
theorem C2_roundtrip_subject_only (userId : String) (now t : Nat) (as rs : String)
    (ha : t < now + accessExpiryMs) (hr : t < now + refreshExpiryMs) :
    verifyJWT t as (generateTokens userId now as rs).1
      = .ok { id := userId, role := none, permissions := none }
    ∧ verifyJWT t rs (generateTokens userId now as rs).2
      = .ok { id := userId, role := none, permissions := none }
    ∧ (mkReqUser { id := userId, role := none, permissions := none }
        (generateTokens userId now as rs).1).role = none
    ∧ (mkReqUser { id := userId, role := none, permissions := none }
        (generateTokens userId now as rs).1).permissions = [] := by
  refine ⟨?_, ?_, rfl, rfl⟩
  · simp [verifyJWT, generateTokens, signJWT, Nat.not_le.mpr ha]
  · simp [verifyJWT, generateTokens, signJWT, Nat.not_le.mpr hr]

/-- C2 witness: concrete instantiation of the amended round-trip at
subject "u1", issuance instant 0, verification instant 1. -/
theorem C2_roundtrip_subject_only_witness :
    verifyJWT 1 "as" (generateTokens "u1" 0 "as" "rs").1
      = .ok { id := "u1", role := none, permissions := none }
    ∧ verifyJWT 1 "rs" (generateTokens "u1" 0 "as" "rs").2
      = .ok { id := "u1", role := none, permissions := none }
    ∧ (mkReqUser { id := "u1", role := none, permissions := none }
        (generateTokens "u1" 0 "as" "rs").1).role = none
    ∧ (mkReqUser { id := "u1", role := none, permissions := none }
        (generateTokens "u1" 0 "as" "rs").1).permissions = [] :=
  C2_roundtrip_subject_only "u1" 0 1 "as" "rs" (by decide) (by decide)

/-- C3 counterexample: in `MainController.login` a locked account
(lock until 3600010, request at instant 10) attempted with a wrong
password is rejected 401, not 423 — the password comparison and the
counter increment happen before the lock check. -/
theorem C3_counterexample :
    (MainController.login cmpEq "as" "rs" 10 (some sampleLockedUser) "bad").1.status = 401
    ∧ (MainController.login cmpEq "as" "rs" 10 (some sampleLockedUser) "bad").2.map
        User.loginAttempts = some 6 := by
  decide

/-- C3 (amended): in `AuthController.login` the lock check does come
first: a locked account is rejected 423 with the stored record
unchanged, regardless of the supplied password; but in
`MainController.login` the password comparison and counter increment
precede the lock check, so a locked account with a wrong password gets
401 and its counter increments. -/
theorem C3_lock_check_order
    (cmp : String → String → Bool) (as rs : String) (now : Nat) (u : User) (pw : String)
    (hlk : u.isLocked now = true) :
    AuthController.login cmp as rs now (some u) pw
      = ({ status := 423, message := "Account is locked. Please try again later.",
           accessToken := none, cookie := none, bodyUser := none }, some u)
    ∧ (cmp pw u.password = false →
        (MainController.login cmp as rs now (some u) pw).1.status = 401
        ∧ (MainController.login cmp as rs now (some u) pw).2
            = some (u.incrementLoginAttempts now)) := by
  constructor
  · simp [AuthController.login, hlk]
  · intro hw
    constructor <;> simp [MainController.login, hw]

/-- C3 witness: the amended statement instantiated at the concrete
locked user, instant 10, wrong password "bad". -/
theorem C3_lock_check_order_witness :
    AuthController.login cmpEq "as" "rs" 10 (some sampleLockedUser) "bad"
      = ({ status := 423, message := "Account is locked. Please try again later.",
           accessToken := none, cookie := none, bodyUser := none }, some sampleLockedUser)
    ∧ (cmpEq "bad" sampleLockedUser.password = false →
        (MainController.login cmpEq "as" "rs" 10 (some sampleLockedUser) "bad").1.status = 401
        ∧ (MainController.login cmpEq "as" "rs" 10 (some sampleLockedUser) "bad").2
            = some (sampleLockedUser.incrementLoginAttempts 10)) :=
  C3_lock_check_order cmpEq "as" "rs" 10 sampleLockedUser "bad" (by decide)

/-- C5 counterexample: the "no such user" response and the
"wrong password against a locked user" response differ in
`AuthController.login` (401 versus 423), so the claimed
indistinguishability does not hold for every such pair of requests. -/
theorem C5_counterexample :
    (AuthController.login cmpEq "as" "rs" 10 none "bad").1
      ≠ (AuthController.login cmpEq "as" "rs" 10 (some sampleLockedUser) "bad").1 := by
  decide

/-- C5 (amended): when the matched identity is not currently locked,
the "no such user" response and the "wrong password" response are
identical (status 401 and the same generic body) in
`AuthController.login`; in `MainController.login` they are identical
for every wrong-password attempt, locked or not. -/
theorem C5_indistinguishable_when_unlocked
    (cmp : String → String → Bool) (as rs : String) (now : Nat)
    (u : User) (pw pw' : String)
    (hnl : u.isLocked now = false) (hw : cmp pw' u.password = false) :
    (AuthController.login cmp as rs now none pw).1
      = (AuthController.login cmp as rs now (some u) pw').1
    ∧ (AuthController.login cmp as rs now none pw).1.status = 401
    ∧ (MainController.login cmp as rs now none pw).1
      = (MainController.login cmp as rs now (some u) pw').1 := by
  refine ⟨?_, rfl, ?_⟩
  · simp [AuthController.login, hnl, hw]
  · simp [MainController.login, hw]

/-- C5 witness: the amended indistinguishability instantiated at the
concrete unlocked user and wrong password "bad" at instant 0. -/
theorem C5_indistinguishable_when_unlocked_witness :
    (AuthController.login cmpEq "as" "rs" 0 none "bad").1
      = (AuthController.login cmpEq "as" "rs" 0 (some sampleUser) "bad").1
    ∧ (AuthController.login cmpEq "as" "rs" 0 none "bad").1.status = 401
    ∧ (MainController.login cmpEq "as" "rs" 0 none "bad").1
      = (MainController.login cmpEq "as" "rs" 0 (some sampleUser) "bad").1 :=
  C5_indistinguishable_when_unlocked cmpEq "as" "rs" 0 sampleUser "bad" "bad"
    (by decide) (by decide)

/-- C6 counterexample: the forgot-password handler answers 404
"User not found" when no identity matches and 200 with the generic
message when one does — the two responses are not the same, so account
existence is disclosed. -/
theorem C6_counterexample :
    (AuthController.forgotPassword 0 none "h").1
      ≠ (AuthController.forgotPassword 0 (some sampleUser) "h").1 := by
  decide

/-- C6 (amended): when the identity exists the handler returns the
200 generic success message and stores the hashed reset token with a
30-minute expiry; when it does not exist the handler returns
404 "User not found", disclosing existence. -/
theorem C6_forgot_password_discloses (now : Nat) (u : User) (h : String) :
    (AuthController.forgotPassword now (some u) h).1
      = { status := 200, message := "Password reset instructions sent to email" }
    ∧ (AuthController.forgotPassword now (some u) h).2
      = some { u with resetPasswordToken := some h,
                      resetPasswordExpires := some (now + 30 * 60 * 1000) }
    ∧ (AuthController.forgotPassword now none h).1
      = { status := 404, message := "User not found" } :=
  ⟨rfl, rfl, rfl⟩

/-- C7 counterexample: the NO_TOKEN rejection path sets no headers at
all, so the hardening headers are not applied on every response the
middleware touches. -/
theorem C7_counterexample :
    AuthMiddleware.authenticate none (fun _ => .error .invalid) none
      = { headers := [],
          result := .error { status := 401, message := "Access denied: No token provided",
                             code := "NO_TOKEN" } }
    ∧ ([] : List (String × String)) ≠ AuthMiddleware.securityHeaders := by
  exact ⟨rfl, by decide⟩

/-- C7 (amended): the middleware stamps the hardening headers exactly
on the success path; every rejection path (no token, invalid format,
revoked, expired, invalid) returns with no headers set. -/
theorem C7_headers_only_on_success
    (redis : Option (String → Bool)) (verify : String → Except VerifyError Payload)
    (authHeader : Option String) :
    (AuthMiddleware.authenticate redis verify authHeader).headers
      = match (AuthMiddleware.authenticate redis verify authHeader).result with
        | .ok _ => AuthMiddleware.securityHeaders
        | .error _ => [] := by
  unfold AuthMiddleware.authenticate
  by_cases h1 : authHeader.getD "" = ""
  · simp [h1]
  · simp only [h1, if_false]
    by_cases h2 : replaceFirst (authHeader.getD "") "Bearer " = ""
    · simp [h2]
    · simp only [h2, if_false]
      cases hv : AuthMiddleware.validateToken redis verify
          (replaceFirst (authHeader.getD "") "Bearer ") <;> simp [hv]

/-- C8 counterexample: `revokeToken` records a fixed 86400-second TTL,
but a freshly issued access token has only 3600 seconds of natural
lifetime left — the recorded TTL exceeds the remaining
lifetime. -/
theorem C8_counterexample :
    AuthMiddleware.revokeToken true "tok1" = .ok ("bl_tok1", "1", 86400)
    ∧ remainingSeconds 0 (generateTokens "u1" 0 "as" "rs").1 = 3600
    ∧ ¬ (86400 ≤ 3600) := by
  decide

/-- C8 (amended): `revokeToken` always records the blacklist entry
`bl_<token> = "1"` with the fixed TTL of 86400 seconds, independent of
the remaining token lifetime; without a configured Redis it throws. -/
theorem C8_fixed_ttl (token : String) :
    AuthMiddleware.revokeToken true token = .ok ("bl_" ++ token, "1", 86400)
    ∧ AuthMiddleware.revokeToken false token
      = .error "Redis is not configured for token blacklisting" :=
  ⟨rfl, rfl⟩

/-- C9: the refresh handler outcome is independent of the credential
store and the revocation predicate (it consults neither), and any
validly verified, unexpired refresh cookie yields 200 with a freshly
minted token pair and a rotated refresh cookie — so a locked, revoked
or deactivated identity still obtains fresh tokens this way. -/
theorem C9_refresh_ignores_stores
    (as rs : String) (now : Nat)
    (users users' : List User) (rev rev' : String → Bool)
    (cookie : Option Jwt) (rt : Jwt) (p : Payload)
    (hv : verifyJWT now rs rt = .ok p) :
    AuthController.refresh as rs now users rev cookie
      = AuthController.refresh as rs now users' rev' cookie
    ∧ AuthController.refresh as rs now users rev (some rt)
      = { status := 200, message := "",
          accessToken := some (generateTokens p.id now as rs).1,
          cookie := some (generateTokens p.id now as rs).2 } := by
  constructor
  · rfl
  · simp [AuthController.refresh, hv]

/-- C9 witness: the refresh token minted at instant 0 for subject "u1"
still yields a fresh 200 token pair at instant 5 even though the
credential store holds only a locked user and the revocation predicate
marks everything revoked. -/
theorem C9_refresh_ignores_stores_witness :
    AuthController.refresh "as" "rs" 5 [sampleLockedUser] (fun _ => true)
        (some (generateTokens "u1" 0 "as" "rs").2)
      = { status := 200, message := "",
          accessToken := some (generateTokens "u1" 5 "as" "rs").1,
          cookie := some (generateTokens "u1" 5 "as" "rs").2 } :=
  (C9_refresh_ignores_stores "as" "rs" 5 [sampleLockedUser] [] (fun _ => true)
      (fun _ => false) (some (generateTokens "u1" 0 "as" "rs").2)
      (generateTokens "u1" 0 "as" "rs").2
      { id := "u1", role := none, permissions := none } (by decide)).2

/-- C1: from a fresh record (counter 0, no lock), five consecutive
wrong-password attempts through `AuthController.login` leave the stored
record with counter 5 and `lockUntil` one hour after the fifth attempt;
a sixth attempt with the correct password is rejected 423 while the
lock is in the future, and succeeds (200) once the lock duration has
elapsed. -/
theorem C1_five_failures_lock_then_423
    (cmp : String → String → Bool) (as rs : String)
    (u : User) (wrong right : String)
    (h0 : u.loginAttempts = 0) (hl : u.lockUntil = none)
    (hw : cmp wrong u.password = false) (hr : cmp right u.password = true)
    (t1 t2 t3 t4 t5 t6 t7 : Nat) (h6 : t6 < t5 + lockTimeMs) (h7 : t5 + lockTimeMs ≤ t7) :
    (AuthController.login cmp as rs t5
      ((AuthController.login cmp as rs t4
        ((AuthController.login cmp as rs t3
          ((AuthController.login cmp as rs t2
            ((AuthController.login cmp as rs t1 (some u) wrong).2) wrong).2) wrong).2) wrong).2)
      wrong).2
      = some { u with loginAttempts := 5, lockUntil := some (t5 + lockTimeMs) }
    ∧ (AuthController.login cmp as rs t6
        (some { u with loginAttempts := 5, lockUntil := some (t5 + lockTimeMs) })
        right).1.status = 423
    ∧ (AuthController.login cmp as rs t7
        (some { u with loginAttempts := 5, lockUntil := some (t5 + lockTimeMs) })
        right).1.status = 200 := by
  have s1 : (AuthController.login cmp as rs t1 (some u) wrong).2
      = some { u with loginAttempts := 1 } := by
    simp [AuthController.login, User.isLocked, User.incrementLoginAttempts, hl, hw, h0]
  have s2 : (AuthController.login cmp as rs t2 (some { u with loginAttempts := 1 }) wrong).2
      = some { u with loginAttempts := 2 } := by
    simp [AuthController.login, User.isLocked, User.incrementLoginAttempts, hl, hw]
  have s3 : (AuthController.login cmp as rs t3 (some { u with loginAttempts := 2 }) wrong).2
      = some { u with loginAttempts := 3 } := by
    simp [AuthController.login, User.isLocked, User.incrementLoginAttempts, hl, hw]
  have s4 : (AuthController.login cmp as rs t4 (some { u with loginAttempts := 3 }) wrong).2
      = some { u with loginAttempts := 4 } := by
    simp [AuthController.login, User.isLocked, User.incrementLoginAttempts, hl, hw]
  have s5 : (AuthController.login cmp as rs t5 (some { u with loginAttempts := 4 }) wrong).2
      = some { u with loginAttempts := 5, lockUntil := some (t5 + lockTimeMs) } := by
    simp [AuthController.login, User.isLocked, User.incrementLoginAttempts, hl, hw]
  refine ⟨?_, ?_, ?_⟩
  · rw [s1, s2, s3, s4, s5]
  · simp [AuthController.login, User.isLocked, h6]
  · have hn7 : ¬ (t7 < t5 + lockTimeMs) := Nat.not_lt.mpr h7
    simp [AuthController.login, User.isLocked, hn7, hr]

/-- C1 witness: the lockout run instantiated at the concrete fresh
user, wrong password "bad", correct password "pw", attempts at instants
1..5, a sixth attempt at instant 100 (rejected) and one at instant
3600005 (lock elapsed, accepted). -/
theorem C1_five_failures_lock_then_423_witness :
    (AuthController.login cmpEq "as" "rs" 5
      ((AuthController.login cmpEq "as" "rs" 4
        ((AuthController.login cmpEq "as" "rs" 3
          ((AuthController.login cmpEq "as" "rs" 2
            ((AuthController.login cmpEq "as" "rs" 1 (some sampleUser) "bad").2) "bad").2)
          "bad").2) "bad").2)
      "bad").2
      = some { sampleUser with loginAttempts := 5, lockUntil := some (5 + lockTimeMs) }
    ∧ (AuthController.login cmpEq "as" "rs" 100
        (some { sampleUser with loginAttempts := 5, lockUntil := some (5 + lockTimeMs) })
        "pw").1.status = 423
    ∧ (AuthController.login cmpEq "as" "rs" 3600005
        (some { sampleUser with loginAttempts := 5, lockUntil := some (5 + lockTimeMs) })
        "pw").1.status = 200 :=
  C1_five_failures_lock_then_423 cmpEq "as" "rs" sampleUser "bad" "pw"
    rfl rfl (by decide) (by decide) 1 2 3 4 5 100 3600005 (by decide) (by decide)

/-- C4: the middleware dispatch on a protected request: missing
(or falsy) Authorization header rejects 401 NO_TOKEN; the header
consisting solely of "Bearer " rejects 401 INVALID_FORMAT; a token
whose blacklist key is present in the configured revocation store
rejects 401 TOKEN_REVOKED; an expired token rejects 401 TOKEN_EXPIRED;
a malformed or wrongly-signed token rejects 401 INVALID_TOKEN;
otherwise the request proceeds with the identity context
(subject id, role, permissions, raw token) attached. -/
theorem C4_middleware_dispatch
    (redis : Option (String → Bool)) (r : String → Bool)
    (verify : String → Except VerifyError Payload)
    (h : String) (p : Payload) (hne : h ≠ "") :
    AuthMiddleware.authenticate redis verify none
      = { headers := [], result := .error { status := 401, message := "Access denied: No token provided", code := "NO_TOKEN" } }
    ∧ AuthMiddleware.authenticate redis verify (some "Bearer ")
      = { headers := [], result := .error { status := 401, message := "Access denied: Invalid token format", code := "INVALID_FORMAT" } }
    ∧ (replaceFirst h "Bearer " ≠ "" → r ("bl_" ++ replaceFirst h "Bearer ") = true →
        AuthMiddleware.authenticate (some r) verify (some h)
          = { headers := [], result := .error { status := 401, message := "Token has been revoked", code := "TOKEN_REVOKED" } })
    ∧ (replaceFirst h "Bearer " ≠ "" → r ("bl_" ++ replaceFirst h "Bearer ") = false →
        verify (replaceFirst h "Bearer ") = .error .expired →
        AuthMiddleware.authenticate (some r) verify (some h)
          = { headers := [], result := .error { status := 401, message := "Token has expired", code := "TOKEN_EXPIRED" } })
    ∧ (replaceFirst h "Bearer " ≠ "" → r ("bl_" ++ replaceFirst h "Bearer ") = false →
        verify (replaceFirst h "Bearer ") = .error .invalid →
        AuthMiddleware.authenticate (some r) verify (some h)
          = { headers := [], result := .error { status := 401, message := "Invalid token", code := "INVALID_TOKEN" } })
    ∧ (replaceFirst h "Bearer " ≠ "" → r ("bl_" ++ replaceFirst h "Bearer ") = false →
        verify (replaceFirst h "Bearer ") = .ok p →
        AuthMiddleware.authenticate (some r) verify (some h)
          = { headers := AuthMiddleware.securityHeaders,
              result := .ok (mkReqUser p (replaceFirst h "Bearer ")) }) := by
  refine ⟨rfl, rfl, ?_, ?_, ?_, ?_⟩
  · intro htok hrv
    simp [AuthMiddleware.authenticate, AuthMiddleware.validateToken,
      AuthMiddleware.handleAuthError, hne, htok, hrv]
  · intro htok hrv hv
    simp [AuthMiddleware.authenticate, AuthMiddleware.validateToken,
      AuthMiddleware.handleAuthError, hne, htok, hrv, hv]
  · intro htok hrv hv
    simp [AuthMiddleware.authenticate, AuthMiddleware.validateToken,
      AuthMiddleware.handleAuthError, hne, htok, hrv, hv]
  · intro htok hrv hv
    simp [AuthMiddleware.authenticate, AuthMiddleware.validateToken,
      AuthMiddleware.handleAuthError, hne, htok, hrv, hv]

/-- C4 witness: the dispatch instantiated on concrete requests: no
header; header "Bearer "; token "tok1" blacklisted; expired token;
invalid token; and a valid token carrying id "u1", role "admin",
permissions ["p"]. -/
theorem C4_middleware_dispatch_witness :
    AuthMiddleware.authenticate none (fun _ => .error .invalid) none
      = { headers := [], result := .error { status := 401, message := "Access denied: No token provided", code := "NO_TOKEN" } }
    ∧ AuthMiddleware.authenticate none (fun _ => .error .invalid) (some "Bearer ")
      = { headers := [], result := .error { status := 401, message := "Access denied: Invalid token format", code := "INVALID_FORMAT" } }
    ∧ AuthMiddleware.authenticate (some (fun s => s == "bl_tok1"))
        (fun _ => .error .invalid) (some "Bearer tok1")
      = { headers := [], result := .error { status := 401, message := "Token has been revoked", code := "TOKEN_REVOKED" } }
    ∧ AuthMiddleware.authenticate (some (fun _ => false))
        (fun _ => .error .expired) (some "Bearer tok1")
      = { headers := [], result := .error { status := 401, message := "Token has expired", code := "TOKEN_EXPIRED" } }
    ∧ AuthMiddleware.authenticate (some (fun _ => false))
        (fun _ => .error .invalid) (some "Bearer tok1")
      = { headers := [], result := .error { status := 401, message := "Invalid token", code := "INVALID_TOKEN" } }
    ∧ AuthMiddleware.authenticate (some (fun _ => false))
        (fun _ => .ok { id := "u1", role := some "admin", permissions := some ["p"] })
        (some "Bearer tok1")
      = { headers := AuthMiddleware.securityHeaders,
          result := .ok (mkReqUser
            { id := "u1", role := some "admin", permissions := some ["p"] }
            (replaceFirst "Bearer tok1" "Bearer ")) } := by
  refine ⟨?_, ?_, ?_, ?_, ?_, ?_⟩
  · exact (C4_middleware_dispatch none (fun _ => false) (fun _ => .error .invalid)
      "x" { id := "", role := none, permissions := none } (by decide)).1
  · exact (C4_middleware_dispatch none (fun _ => false) (fun _ => .error .invalid)
      "x" { id := "", role := none, permissions := none } (by decide)).2.1
  · exact (C4_middleware_dispatch none (fun s => s == "bl_tok1") (fun _ => .error .invalid)
      "Bearer tok1" { id := "", role := none, permissions := none }
      (by decide)).2.2.1 (by decide) (by decide)
  · exact (C4_middleware_dispatch none (fun _ => false) (fun _ => .error .expired)
      "Bearer tok1" { id := "", role := none, permissions := none }
      (by decide)).2.2.2.1 (by decide) (by decide) rfl
  · exact (C4_middleware_dispatch none (fun _ => false) (fun _ => .error .invalid)
      "Bearer tok1" { id := "", role := none, permissions := none }
      (by decide)).2.2.2.2.1 (by decide) (by decide) rfl
  · exact (C4_middleware_dispatch none (fun _ => false)
      (fun _ => .ok { id := "u1", role := some "admin", permissions := some ["p"] })
      "Bearer tok1" { id := "u1", role := some "admin", permissions := some ["p"] }
      (by decide)).2.2.2.2.2 (by decide) (by decide) rfl

/-- C10: the middleware does not require the Bearer scheme: the token
is the header with the first occurrence of the substring "Bearer "
removed, so a raw token (nonempty, not containing "Bearer ") is
processed exactly as if it carried the prefix, and INVALID_FORMAT
arises exactly when the nonempty header consists solely of "Bearer ". -/
theorem C10_bearer_scheme_not_required
    (redis : Option (String → Bool)) (verify : String → Except VerifyError Payload)
    (h t : String) (hne : h ≠ "") (htne : t ≠ "")
    (hnc : strContains t "Bearer " = false) :
    replaceFirst ("Bearer " ++ t) "Bearer " = t
    ∧ replaceFirst t "Bearer " = t
    ∧ AuthMiddleware.authenticate redis verify (some t)
        = AuthMiddleware.authenticate redis verify (some ("Bearer " ++ t))
    ∧ ((AuthMiddleware.authenticate redis verify (some h)).result
         = .error { status := 401, message := "Access denied: Invalid token format",
                    code := "INVALID_FORMAT" }
       ↔ h = "Bearer ") := by
  have s2 : replaceFirst ("Bearer " ++ t) "Bearer " = t := replaceFirst_append_self t
  have s1 : replaceFirst t "Bearer " = t := replaceFirst_of_not_contains t hnc
  refine ⟨s2, s1, ?_, ?_⟩
  · simp [AuthMiddleware.authenticate, htne, append_bearer_ne_empty t, s1, s2]
  · constructor
    · intro hres
      by_cases hbt : replaceFirst h "Bearer " = ""
      · rcases replaceFirst_eq_empty h hbt with h1 | h2
        · exact absurd h1 hne
        · exact h2
      · exfalso
        simp [AuthMiddleware.authenticate, hne, hbt] at hres
        rcases hv : AuthMiddleware.validateToken redis verify (replaceFirst h "Bearer ") with
          e | q
        · rw [hv] at hres
          cases e <;> simp [AuthMiddleware.handleAuthError] at hres
        · rw [hv] at hres
          simp at hres
    · intro hb
      subst hb
      have hz : replaceFirst "Bearer " "Bearer " = "" := rfl
      simp [AuthMiddleware.authenticate, hz]

/-- C10 witness: the equal processing instantiated at the raw token
"tok1" (with and without the "Bearer " prefix) and the INVALID_FORMAT
equivalence at the header "Bearer tok1". -/
theorem C10_bearer_scheme_not_required_witness :
    replaceFirst ("Bearer " ++ "tok1") "Bearer " = "tok1"
    ∧ replaceFirst "tok1" "Bearer " = "tok1"
    ∧ AuthMiddleware.authenticate none (fun _ => .error .invalid) (some "tok1")
        = AuthMiddleware.authenticate none (fun _ => .error .invalid)
            (some ("Bearer " ++ "tok1"))
    ∧ ((AuthMiddleware.authenticate none (fun _ => .error .invalid)
          (some "Bearer tok1")).result
         = .error { status := 401, message := "Access denied: Invalid token format",
                    code := "INVALID_FORMAT" }
       ↔ "Bearer tok1" = "Bearer ") :=
  C10_bearer_scheme_not_required none (fun _ => .error .invalid) "Bearer tok1" "tok1"
    (by decide) (by decide) (by decide)
